import Mathlib

/-!
Verification of the TradingAgents-CN core: the bounded multi-stage workflow
state machine (debate / risk regions, configuration, agent nodes, progress
reporting) and the agent registry / dispatcher.

Shallow embedding conventions:
- Python dict-backed records become Lean structures with `Option`-valued slots.
- A worker invocation that may raise becomes an `Except String α` argument.
- A Python coroutine that catches all exceptions and returns its state becomes a
  total function returning `Except.ok`; a propagated exception would be
  `Except.error`.
- Python float arithmetic on small integer counts is modelled exactly on `ℚ`.
-/

namespace TradingAgentsCN

/-! ## Investment debate routing

`app/graphs/conditional_logic.py` is imported by `trading_graph.py` but the file
itself is not present; the routing functions below are modelled from the spec
(§4.4), consistent with the conditional-edge maps in
`TradingGraph._add_edges` and with `test_conditional_logic_fix.py`.
-/

inductive DebateSpeaker
  | bull
  | bear
deriving DecidableEq, Repr

inductive DebateTarget
  | bull_researcher
  | bear_researcher
  | research_manager
deriving DecidableEq, Repr

structure InvestDebateState where
  count : Nat
  latest_speaker : DebateSpeaker
deriving DecidableEq, Repr

/-- Modelled from the spec: `ConditionalLogic.should_continue_debate`
(`conditional_logic.py` is missing from the sources; only its callers in
`TradingGraph._add_edges` and its test are present).  Spec §4.4: "if
`debate_count >= 2 * max_debate_rounds`, go to `research_manager`; else go to
the *other* speaker (alternation, starting with bull)." -/
def should_continue_debate (max_debate_rounds : Nat) (s : InvestDebateState) :
    DebateTarget :=
  if s.count ≥ 2 * max_debate_rounds then
    .research_manager
  else
    match s.latest_speaker with
    | .bull => .bear_researcher
    | .bear => .bull_researcher

def other_speaker : DebateSpeaker → DebateSpeaker
  | .bull => .bear
  | .bear => .bull

def debate_target_of : DebateSpeaker → DebateTarget
  | .bull => .bull_researcher
  | .bear => .bear_researcher

/-- One pass through the investment-debate region.  A researcher stage executes
(incrementing `debate_count` and recording itself as latest speaker, spec §4.4),
then the router decides; the function counts executed stages.  `fuel` bounds the
recursion so the function is total. -/
def debate_region_stages (N : Nat) : DebateSpeaker → Nat → Nat → Nat
  | _, _, 0 => 0
  | sp, count, fuel + 1 =>
    match should_continue_debate N ⟨count + 1, sp⟩ with
    | .research_manager => 1
    | .bull_researcher => 1 + debate_region_stages N .bull (count + 1) fuel
    | .bear_researcher => 1 + debate_region_stages N .bear (count + 1) fuel

/-! ## Risk debate routing -/

inductive RiskSpeaker
  | risky
  | safe
  | neutral
deriving DecidableEq, Repr

inductive RiskTarget
  | risky_analyst
  | safe_analyst
  | neutral_analyst
  | risk_manager
deriving DecidableEq, Repr

structure RiskDebateState where
  count : Nat
  latest_speaker : RiskSpeaker
deriving DecidableEq, Repr

/-- Modelled from the spec: `ConditionalLogic.should_continue_risk_analysis`
(`conditional_logic.py` is missing from the sources).  Spec §4.4: "if
`risk_count >= 3 * max_risk_rounds`, go to `risk_manager`; else go to the next
speaker in the fixed 3-cycle ... following risky→safe→neutral→risky". -/
def should_continue_risk_analysis (max_risk_rounds : Nat) (s : RiskDebateState) :
    RiskTarget :=
  if s.count ≥ 3 * max_risk_rounds then
    .risk_manager
  else
    match s.latest_speaker with
    | .risky => .safe_analyst
    | .safe => .neutral_analyst
    | .neutral => .risky_analyst

def risk_cycle_next : RiskSpeaker → RiskSpeaker
  | .risky => .safe
  | .safe => .neutral
  | .neutral => .risky

def risk_target_of : RiskSpeaker → RiskTarget
  | .risky => .risky_analyst
  | .safe => .safe_analyst
  | .neutral => .neutral_analyst

/-- One pass through the risk-debate region, counting executed stages. -/
def risk_region_stages (N : Nat) : RiskSpeaker → Nat → Nat → Nat
  | _, _, 0 => 0
  | sp, count, fuel + 1 =>
    match should_continue_risk_analysis N ⟨count + 1, sp⟩ with
    | .risk_manager => 1
    | .risky_analyst => 1 + risk_region_stages N .risky (count + 1) fuel
    | .safe_analyst => 1 + risk_region_stages N .safe (count + 1) fuel
    | .neutral_analyst => 1 + risk_region_stages N .neutral (count + 1) fuel

lemma debate_region_stages_eq (N : Nat) :
    ∀ fuel count sp, count < 2 * N → 2 * N - count ≤ fuel →
      debate_region_stages N sp count fuel = 2 * N - count := by
  intro fuel
  induction fuel with
  | zero =>
    intro count sp h1 h2
    omega
  | succ fuel ih =>
    intro count sp h1 h2
    by_cases hc : count + 1 ≥ 2 * N
    · have hr : should_continue_debate N ⟨count + 1, sp⟩ = .research_manager := by
        simp [should_continue_debate, hc]
      simp only [debate_region_stages, hr]
      omega
    · have hlt : count + 1 < 2 * N := by omega
      cases sp with
      | bull =>
        have hr : should_continue_debate N ⟨count + 1, .bull⟩ = .bear_researcher := by
          simp [should_continue_debate, hc]
        simp only [debate_region_stages, hr]
        rw [ih (count + 1) .bear hlt (by omega)]
        omega
      | bear =>
        have hr : should_continue_debate N ⟨count + 1, .bear⟩ = .bull_researcher := by
          simp [should_continue_debate, hc]
        simp only [debate_region_stages, hr]
        rw [ih (count + 1) .bull hlt (by omega)]
        omega

lemma risk_region_stages_eq (N : Nat) :
    ∀ fuel count sp, count < 3 * N → 3 * N - count ≤ fuel →
      risk_region_stages N sp count fuel = 3 * N - count := by
  intro fuel
  induction fuel with
  | zero =>
    intro count sp h1 h2
    omega
  | succ fuel ih =>
    intro count sp h1 h2
    by_cases hc : count + 1 ≥ 3 * N
    · have hr : should_continue_risk_analysis N ⟨count + 1, sp⟩ = .risk_manager := by
        simp [should_continue_risk_analysis, hc]
      simp only [risk_region_stages, hr]
      omega
    · have hlt : count + 1 < 3 * N := by omega
      cases sp with
      | risky =>
        have hr : should_continue_risk_analysis N ⟨count + 1, .risky⟩ = .safe_analyst := by
          simp [should_continue_risk_analysis, hc]
        simp only [risk_region_stages, hr]
        rw [ih (count + 1) .safe hlt (by omega)]
        omega
      | safe =>
        have hr : should_continue_risk_analysis N ⟨count + 1, .safe⟩ = .neutral_analyst := by
          simp [should_continue_risk_analysis, hc]
        simp only [risk_region_stages, hr]
        rw [ih (count + 1) .neutral hlt (by omega)]
        omega
      | neutral =>
        have hr : should_continue_risk_analysis N ⟨count + 1, .neutral⟩ = .risky_analyst := by
          simp [should_continue_risk_analysis, hc]
        simp only [risk_region_stages, hr]
        rw [ih (count + 1) .risky hlt (by omega)]
        omega

/-- C1: for every `max_debate_rounds = N ≥ 1` and every debate state, the router
goes to `research_manager` exactly when `debate_count ≥ 2 * N`; below the bound
it goes to the other speaker (bull after bear, bear after bull); consequently,
entering the region at count 0 with either speaker, exactly `2 * N` debate
stages execute (hence at most `2 * N`) before control reaches
`research_manager`. -/
theorem C1_debate_region (N : Nat) (hN : 1 ≤ N) (s : InvestDebateState)
    (sp : DebateSpeaker) (fuel : Nat) (hf : 2 * N ≤ fuel) :
    (should_continue_debate N s = .research_manager ↔ 2 * N ≤ s.count)
    ∧ (s.count < 2 * N →
        should_continue_debate N s = debate_target_of (other_speaker s.latest_speaker))
    ∧ debate_region_stages N sp 0 fuel = 2 * N := by
  refine ⟨?_, ?_, ?_⟩
  · rcases le_or_lt (2 * N) s.count with h | h
    · simp [should_continue_debate, h]
    · have hnot : ¬ s.count ≥ 2 * N := by omega
      simp only [should_continue_debate, ge_iff_le, if_neg hnot]
      cases s.latest_speaker <;> simp <;> omega
  · intro h
    have hnot : ¬ s.count ≥ 2 * N := by omega
    simp only [should_continue_debate, ge_iff_le, if_neg hnot]
    cases s.latest_speaker <;> rfl
  · have := debate_region_stages_eq N fuel 0 sp (by omega) (by omega)
    omega

/-- Witness for C1 at `N = 1`: at count 2 the router exits to the manager, at
count 1 after bull it goes to bear, and the region run from count 0 executes
exactly 2 stages. -/
theorem C1_debate_region_witness :
    should_continue_debate 1 ⟨2, .bear⟩ = .research_manager
    ∧ should_continue_debate 1 ⟨1, .bull⟩ = .bear_researcher
    ∧ debate_region_stages 1 .bull 0 2 = 2 := by
  have h := C1_debate_region 1 (by decide) ⟨2, .bear⟩ .bull 2 (by decide)
  have h1 := C1_debate_region 1 (by decide) ⟨1, .bull⟩ .bull 2 (by decide)
  exact ⟨h.1.mpr (by decide), h1.2.1 (by decide), h.2.2⟩

/-- C2: for every `max_risk_rounds = N ≥ 1` and every risk-debate state, the
router goes to `risk_manager` exactly when `risk_count ≥ 3 * N`; below the bound
it goes to the successor of the latest speaker in the fixed cycle
risky→safe→neutral→risky; consequently, entering the region at count 0 with any
speaker, exactly `3 * N` risk-debate stages execute (hence at most `3 * N`). -/
theorem C2_risk_region (N : Nat) (hN : 1 ≤ N) (s : RiskDebateState)
    (sp : RiskSpeaker) (fuel : Nat) (hf : 3 * N ≤ fuel) :
    (should_continue_risk_analysis N s = .risk_manager ↔ 3 * N ≤ s.count)
    ∧ (s.count < 3 * N →
        should_continue_risk_analysis N s = risk_target_of (risk_cycle_next s.latest_speaker))
    ∧ risk_region_stages N sp 0 fuel = 3 * N := by
  refine ⟨?_, ?_, ?_⟩
  · rcases le_or_lt (3 * N) s.count with h | h
    · simp [should_continue_risk_analysis, h]
    · have hnot : ¬ s.count ≥ 3 * N := by omega
      simp only [should_continue_risk_analysis, ge_iff_le, if_neg hnot]
      cases s.latest_speaker <;> simp <;> omega
  · intro h
    have hnot : ¬ s.count ≥ 3 * N := by omega
    simp only [should_continue_risk_analysis, ge_iff_le, if_neg hnot]
    cases s.latest_speaker <;> rfl
  · have := risk_region_stages_eq N fuel 0 sp (by omega) (by omega)
    omega

/-- Witness for C2 at `N = 1`: at count 3 the router exits to the risk manager,
at count 2 after safe it goes to neutral, and the region run from count 0
executes exactly 3 stages. -/
theorem C2_risk_region_witness :
    should_continue_risk_analysis 1 ⟨3, .neutral⟩ = .risk_manager
    ∧ should_continue_risk_analysis 1 ⟨2, .safe⟩ = .neutral_analyst
    ∧ risk_region_stages 1 .risky 0 3 = 3 := by
  have h := C2_risk_region 1 (by decide) ⟨3, .neutral⟩ .risky 3 (by decide)
  have h1 := C2_risk_region 1 (by decide) ⟨2, .safe⟩ .risky 3 (by decide)
  exact ⟨h.1.mpr (by decide), h1.2.1 (by decide), h.2.2⟩

/-! ## TradingGraph configuration (`trading_graph.py`) -/

structure GraphConfig where
  selected_analysts : List String
  research_depth : Nat
  max_debate_rounds : Nat
  max_risk_rounds : Nat
  llm_provider : String
  llm_model : String
  market_type : Option String
deriving DecidableEq, Repr

/-- `TradingGraph.default_config` (`trading_graph.py`, constructor). -/
def default_config : GraphConfig :=
  { selected_analysts := ["market", "fundamentals", "news", "social"]
    research_depth := 3
    max_debate_rounds := 3
    max_risk_rounds := 2
    llm_provider := "dashscope"
    llm_model := "qwen-plus-latest"
    market_type := none }

/-- A request configuration dict: `none` means the key is absent. -/
structure RequestConfig where
  analysts : Option (List String) := none
  research_depth : Option Nat := none
  llm_provider : Option String := none
  llm_model : Option String := none
  market_type : Option String := none
deriving DecidableEq, Repr

def RequestConfig.isEmpty (r : RequestConfig) : Bool :=
  r.analysts.isNone && r.research_depth.isNone && r.llm_provider.isNone
    && r.llm_model.isNone && r.market_type.isNone

/-- The round table of `TradingGraph.update_config`: the `if depth == 1 ...
elif ... else` chain mapping `research_depth` to
`(max_debate_rounds, max_risk_rounds)`. -/
def depth_rounds (depth : Nat) : Nat × Nat :=
  if depth = 1 then (1, 1)
  else if depth = 2 then (1, 1)
  else if depth = 3 then (2, 2)
  else if depth = 4 then (3, 2)
  else (3, 3)

/-- The engine state relevant to configuration: its config and the built graph.
`graph = some (db, rk)` stands for a compiled graph whose `ConditionalLogic`
was constructed with `max_debate_rounds = db` and `max_risk_rounds = rk`
(see the engine's `initialize`); `none` means the graph must be rebuilt. -/
structure TradingGraphS where
  config : GraphConfig
  graph : Option (Nat × Nat)
deriving DecidableEq, Repr

/-- `TradingGraph.update_config`.  Faithful to the source: each present key
updates the config; the graph is reset (forcing a rebuild) only under
`if "analysts" in request_config`. -/
def update_config (g : TradingGraphS) (r : RequestConfig) : TradingGraphS :=
  if r.isEmpty then g
  else
    let c := g.config
    let c := match r.analysts with
      | some a => { c with selected_analysts := a }
      | none => c
    let c := match r.research_depth with
      | some d =>
        { c with research_depth := d
                 max_debate_rounds := (depth_rounds d).1
                 max_risk_rounds := (depth_rounds d).2 }
      | none => c
    let c := match r.llm_provider with
      | some p => { c with llm_provider := p }
      | none => c
    let c := match r.llm_model with
      | some m => { c with llm_model := m }
      | none => c
    let c := match r.market_type with
      | some m => { c with market_type := some m }
      | none => c
    { config := c
      graph := if r.analysts.isSome then none else g.graph }

/-- The engine's `initialize`: builds `ConditionalLogic` from the current
config's round limits and compiles the graph. -/
def build_and_compile (g : TradingGraphS) : TradingGraphS :=
  { g with graph := some (g.config.max_debate_rounds, g.config.max_risk_rounds) }

/-- C4: for every research depth 1..5 supplied in the request configuration,
`update_config` sets `(max_debate_rounds, max_risk_rounds)` by the fixed table
depth 1→(1,1), 2→(1,1), 3→(2,2), 4→(3,2), 5→(3,3). -/
theorem C4_depth_table (g : TradingGraphS) (d : Nat) (h1 : 1 ≤ d) (h2 : d ≤ 5) :
    ((update_config g { research_depth := some d }).config.max_debate_rounds,
      (update_config g { research_depth := some d }).config.max_risk_rounds)
    = [(1, 1), (1, 1), (2, 2), (3, 2), (3, 3)].getD (d - 1) (0, 0) := by
  interval_cases d <;> rfl

/-- Witness for C4 at depth 4 on the freshly built default engine state. -/
theorem C4_depth_table_witness :
    ((update_config (build_and_compile ⟨default_config, none⟩)
        { research_depth := some 4 }).config.max_debate_rounds,
      (update_config (build_and_compile ⟨default_config, none⟩)
        { research_depth := some 4 }).config.max_risk_rounds)
    = (3, 2) := by
  have h := C4_depth_table (build_and_compile ⟨default_config, none⟩) 4
    (by decide) (by decide)
  simpa using h

/-- C5 counterexample: a request that changes only `research_depth` (from 3 to
1, which changes both round limits) does NOT invalidate the previously built
graph — the stale compiled graph, built with the old rounds (3, 2), is still in
place, so the next run would execute with it. -/
theorem C5_counterexample :
    (update_config (build_and_compile ⟨default_config, none⟩)
        { research_depth := some 1 }).graph = some (3, 2)
    ∧ (update_config (build_and_compile ⟨default_config, none⟩)
        { research_depth := some 1 }).config.max_debate_rounds = 1
    ∧ (update_config (build_and_compile ⟨default_config, none⟩)
        { research_depth := some 1 }).config.max_risk_rounds = 1
    ∧ default_config.research_depth = 3 := by
  exact ⟨rfl, rfl, rfl, rfl⟩

/-- C5 amended: a previously built graph is invalidated exactly when the update
contains an `analysts` key (whether or not the subset differs); an update that
changes only `research_depth` (or any other key) leaves the stale compiled
graph in place. -/
theorem C5_graph_reset (g : TradingGraphS) (r : RequestConfig) :
    (update_config g r).graph
    = (if r.analysts.isSome then none else g.graph) := by
  by_cases he : r.isEmpty
  · have ha : r.analysts.isNone := by
      simp only [RequestConfig.isEmpty, Bool.and_eq_true] at he
      exact he.1.1.1.1
    rw [Option.isNone_iff_eq_none] at ha
    simp [update_config, he, ha]
  · simp [update_config, he]

/-! ## Workflow state and agent nodes (`agent_nodes.py`)

`GraphState` mirrors the keys written by `TradingGraph._create_initial_state`
together with the keys the nodes assign (`bull_opinion`, `bear_opinion`,
`neutral_opinion`, `research_decision`, `final_decision`).  Report payloads are
abstracted to `String`.  A node wraps its worker call in `try/except Exception`
appending to `errors`, so in the embedding every node returns `Except.ok`; a
propagated exception would be `Except.error`. -/

structure NeutralOpinion where
  analysis_type : String
  symbol : String
  analyst : String
  recommendation : String
  confidence : Rat
  reasoning : String
  timestamp : String
deriving DecidableEq, Repr

structure GraphState where
  symbol : String
  company_name : String
  analysis_type : String
  current_date : String
  stock_data : Option String
  financial_data : Option String
  market_data : Option String
  news_data : Option String
  social_data : Option String
  fundamentals_report : Option String
  technical_report : Option String
  news_report : Option String
  sentiment_report : Option String
  social_report : Option String
  bull_analysis : Option String
  bear_analysis : Option String
  bull_opinion : Option String
  bear_opinion : Option String
  neutral_opinion : Option NeutralOpinion
  research_decision : Option String
  risk_assessment : Option String
  risky_analysis : Option String
  safe_analysis : Option String
  neutral_analysis : Option String
  final_recommendation : Option String
  investment_plan : Option String
  trade_decision : Option String
  final_decision : Option String
  errors : List String
  warnings : List String
  current_step : String
  completed_steps : List String
  next_steps : List String
  debate_history : List String
  debate_summary : Option String
  risk_history : List String
  risk_summary : Option String
deriving DecidableEq, Repr

/-- `TradingGraph._create_initial_state` (metadata/messages omitted as
out-of-scope payloads). -/
def create_initial_state (symbol analysis_date : String) : GraphState :=
  { symbol := symbol
    company_name := symbol
    analysis_type := "comprehensive"
    current_date := analysis_date
    stock_data := none
    financial_data := none
    market_data := none
    news_data := none
    social_data := none
    fundamentals_report := none
    technical_report := none
    news_report := none
    sentiment_report := none
    social_report := none
    bull_analysis := none
    bear_analysis := none
    bull_opinion := none
    bear_opinion := none
    neutral_opinion := none
    research_decision := none
    risk_assessment := none
    risky_analysis := none
    safe_analysis := none
    neutral_analysis := none
    final_recommendation := none
    investment_plan := none
    trade_decision := none
    final_decision := none
    errors := []
    warnings := []
    current_step := "start"
    completed_steps := []
    next_steps := ["market_analyst"]
    debate_history := []
    debate_summary := none
    risk_history := []
    risk_summary := none }

/-- `AgentNodes.market_analyst_node`.  `worker` models
`await self.market_analyst.analyze(...)` (including the "not initialized"
ValueError): `.ok r` is a produced report, `.error e` a raised exception. -/
def market_analyst_node (worker : Except String String) (s : GraphState) :
    Except String GraphState :=
  match worker with
  | .ok r => .ok { s with technical_report := some r
                          current_step := "market_analysis_complete" }
  | .error e => .ok { s with errors := s.errors ++ ["市场分析失败: " ++ e] }

/-- `AgentNodes.fundamentals_analyst_node`. -/
def fundamentals_analyst_node (worker : Except String String) (s : GraphState) :
    Except String GraphState :=
  match worker with
  | .ok r => .ok { s with fundamentals_report := some r
                          current_step := "fundamentals_analysis_complete" }
  | .error e => .ok { s with errors := s.errors ++ ["基本面分析失败: " ++ e] }

/-- `AgentNodes.news_analyst_node`. -/
def news_analyst_node (worker : Except String String) (s : GraphState) :
    Except String GraphState :=
  match worker with
  | .ok r => .ok { s with news_report := some r
                          current_step := "news_analysis_complete" }
  | .error e => .ok { s with errors := s.errors ++ ["新闻分析失败: " ++ e] }

/-- `AgentNodes.social_analyst_node`. -/
def social_analyst_node (worker : Except String String) (s : GraphState) :
    Except String GraphState :=
  match worker with
  | .ok r => .ok { s with social_report := some r
                          current_step := "social_analysis_complete" }
  | .error e => .ok { s with errors := s.errors ++ ["社交媒体分析失败: " ++ e] }

/-- `AgentNodes.bull_researcher_node`. -/
def bull_researcher_node (worker : Except String String) (s : GraphState) :
    Except String GraphState :=
  match worker with
  | .ok r => .ok { s with bull_opinion := some r
                          current_step := "bull_research_complete" }
  | .error e => .ok { s with errors := s.errors ++ ["看涨研究失败: " ++ e] }

/-- `AgentNodes.bear_researcher_node`. -/
def bear_researcher_node (worker : Except String String) (s : GraphState) :
    Except String GraphState :=
  match worker with
  | .ok r => .ok { s with bear_opinion := some r
                          current_step := "bear_research_complete" }
  | .error e => .ok { s with errors := s.errors ++ ["看跌研究失败: " ++ e] }

/-- `AgentNodes.research_manager_node`. -/
def research_manager_node (worker : Except String String) (s : GraphState) :
    Except String GraphState :=
  match worker with
  | .ok r => .ok { s with research_decision := some r
                          current_step := "research_decision_complete" }
  | .error e => .ok { s with errors := s.errors ++ ["研究决策失败: " ++ e] }

/-- `AgentNodes.trader_node`. -/
def trader_node (worker : Except String String) (s : GraphState) :
    Except String GraphState :=
  match worker with
  | .ok r => .ok { s with investment_plan := some r
                          current_step := "trading_strategy_complete" }
  | .error e => .ok { s with errors := s.errors ++ ["交易策略失败: " ++ e] }

/-- `AgentNodes.risk_manager_node` — the terminal stage.  Its body is the
same try/except pattern as every other node: on a worker error the message is
appended to `errors` and the state is returned normally. -/
def risk_manager_node (worker : Except String String) (s : GraphState) :
    Except String GraphState :=
  match worker with
  | .ok r => .ok { s with final_decision := some r
                          current_step := "final_decision_complete" }
  | .error e => .ok { s with errors := s.errors ++ ["最终决策失败: " ++ e] }

/-- `AgentNodes.risky_analyst_node`: delegates unconditionally to
`bear_researcher_node` ("compatibility method" in the source). -/
def risky_analyst_node (worker : Except String String) (s : GraphState) :
    Except String GraphState :=
  bear_researcher_node worker s

/-- `AgentNodes.safe_analyst_node`: delegates unconditionally to
`bull_researcher_node`. -/
def safe_analyst_node (worker : Except String String) (s : GraphState) :
    Except String GraphState :=
  bull_researcher_node worker s

/-- `AgentNodes.neutral_analyst_node`: fabricates a fixed HOLD opinion without
calling any worker. -/
def neutral_analyst_node (s : GraphState) : Except String GraphState :=
  .ok { s with
          neutral_opinion := some
            { analysis_type := "neutral_analysis"
              symbol := s.symbol
              analyst := "NeutralAnalyst"
              recommendation := "HOLD"
              confidence := 1 / 2
              reasoning := "中性观点：建议观望，等待更明确的市场信号"
              timestamp := "" }
          current_step := "neutral_analysis_complete" }

/-- C3 counterexample: a worker error at the terminal `risk_manager` stage is
NOT fatal — the node returns `.ok` (no exception escapes), merely appending the
message to `errors` and leaving `final_decision` unset, contrary to the claim
that the terminal stage's failure is fatal and surfaced to the caller. -/
theorem C3_counterexample :
    risk_manager_node (Except.error "boom") (create_initial_state "AAPL" "2025-01-01")
      = Except.ok { create_initial_state "AAPL" "2025-01-01" with
                      errors := ["最终决策失败: " ++ "boom"] }
    ∧ (create_initial_state "AAPL" "2025-01-01").final_decision = none := by
  exact ⟨rfl, rfl⟩

/-- C3 amended: EVERY stage whose worker raises — the terminal `risk_manager`
stage included — recovers identically: the error message is appended to
`errors`, the stage's report slot is left unset, a normal state is returned and
routing proceeds; no per-stage worker failure is fatal at the node level. -/
theorem C3_stage_error_recovery (e : String) (s : GraphState) :
    market_analyst_node (Except.error e) s
      = Except.ok { s with errors := s.errors ++ ["市场分析失败: " ++ e] }
    ∧ bull_researcher_node (Except.error e) s
      = Except.ok { s with errors := s.errors ++ ["看涨研究失败: " ++ e] }
    ∧ trader_node (Except.error e) s
      = Except.ok { s with errors := s.errors ++ ["交易策略失败: " ++ e] }
    ∧ risk_manager_node (Except.error e) s
      = Except.ok { s with errors := s.errors ++ ["最终决策失败: " ++ e] }
    ∧ (risk_manager_node (Except.error e) s).map GraphState.final_decision
      = Except.ok s.final_decision := by
  exact ⟨rfl, rfl, rfl, rfl, rfl⟩

/-- C10: `risky_analyst_node` is extensionally equal to `bear_researcher_node`
and `safe_analyst_node` to `bull_researcher_node` (unconditional delegation);
hence a pass through the risk region re-invokes the bear/bull researchers and
overwrites `bear_opinion`/`bull_opinion`, leaving the dedicated
`risky_analysis`/`safe_analysis` slots untouched. -/
theorem C10_risk_nodes_delegate (worker : Except String String) (s : GraphState)
    (r : String) :
    risky_analyst_node worker s = bear_researcher_node worker s
    ∧ safe_analyst_node worker s = bull_researcher_node worker s
    ∧ risky_analyst_node (Except.ok r) s
      = Except.ok { s with bear_opinion := some r
                           current_step := "bear_research_complete" }
    ∧ safe_analyst_node (Except.ok r) s
      = Except.ok { s with bull_opinion := some r
                           current_step := "bull_research_complete" }
    ∧ (risky_analyst_node (Except.ok r) s).map GraphState.risky_analysis
      = Except.ok s.risky_analysis
    ∧ (safe_analyst_node (Except.ok r) s).map GraphState.safe_analysis
      = Except.ok s.safe_analysis := by
  exact ⟨rfl, rfl, rfl, rfl, rfl, rfl⟩

/-! ## Progress reporting (`TradingGraph.analyze_stock` /
`TradingGraph._background_progress_monitor`)

`analyze_stock` emits fixed callbacks at 5, 10 and 15 percent, then launches
`_background_progress_monitor` as a concurrent task.  The monitor sleeps 3
seconds between emissions and walks a hard-coded `steps` table — its emissions
are driven by the timer, not by stage-boundary events of the graph.  On
success the monitor is cancelled and 90 then 100 are emitted; on an exception
the handler emits a failure update with percent 0 and re-raises.

`analyze_stock_percents success ticks` is the percent sequence delivered to the
callback in the sequential interleaving in which `ticks` timer firings occur
before graph completion (0 ≤ ticks ≤ 10). -/

def monitor_steps : List (Nat × String) :=
  [(25, "市场分析师"), (35, "基本面分析师"), (45, "新闻分析师"),
   (55, "社交媒体分析师"), (65, "看涨研究员"), (70, "看跌研究员"),
   (75, "研究经理"), (80, "交易员"), (85, "风险分析师"), (90, "风险管理经理")]

def analyze_stock_percents (success : Bool) (ticks : Nat) : List Nat :=
  [5, 10, 15] ++ (monitor_steps.map Prod.fst).take ticks
    ++ (if success then [90, 100] else [0])

/-- C9 counterexample: a failed run (here with three timer firings before the
exception) delivers the percent sequence 5, 10, 15, 25, 35, 45, 0 — the final
failure update carries percent 0, so the sequence is not monotonically
non-decreasing, contrary to the claim. -/
theorem C9_counterexample :
    ¬ List.Chain' (fun a b => a ≤ b) (analyze_stock_percents false 3) := by
  rw [List.chain'_iff_pairwise]
  decide

/-- C9 amended: on a successful run the percent sequence is monotonically
non-decreasing, starts at the initial value 5 and ends at 100, and 100 is
reached only at terminal success (a failed run never emits 100 and ends with a
failure update at percent 0, breaking monotonicity).  The updates between 25
and 90 percent are the fixed `monitor_steps` schedule emitted by the
timer-driven background monitor, not by stage-boundary events. -/
theorem C9_progress (ticks : Nat) (h : ticks ≤ 10) :
    List.Chain' (fun a b => a ≤ b) (analyze_stock_percents true ticks)
    ∧ (analyze_stock_percents true ticks).head? = some 5
    ∧ (analyze_stock_percents true ticks).getLast? = some 100
    ∧ (analyze_stock_percents false ticks).getLast? = some 0
    ∧ 100 ∉ analyze_stock_percents false ticks := by
  interval_cases ticks <;>
    exact ⟨by rw [List.chain'_iff_pairwise]; decide, by decide, by decide,
      by decide, by decide⟩

/-- Witness for C9 amended: the full schedule (all ten timer firings). -/
theorem C9_progress_witness :
    List.Chain' (fun a b => a ≤ b) (analyze_stock_percents true 10)
    ∧ (analyze_stock_percents true 10).getLast? = some 100 := by
  have h := C9_progress 10 (by decide)
  exact ⟨h.1, h.2.2.1⟩

/-! ## Agent registry and dispatcher (`agent_manager.py`)

`base_agent.py` is not among the sources; `AgentType`, `AgentStatus`,
`Capability` and the capability predicate are modelled from the spec (§3, §6).
The manager's own operations below are translated from `agent_manager.py`.
The Redis/Mongo mirroring steps are external best-effort side effects (each
wrapped in its own try/except that only logs), so they do not appear in the
registry state. -/

inductive AgentType
  | fundamentals_analyst
  | market_analyst
  | news_analyst
  | social_media_analyst
  | bull_researcher
  | bear_researcher
  | research_manager
  | risk_manager
  | trader
  | risky_debator
  | safe_debator
  | neutral_debator
deriving DecidableEq, Repr

def AgentType.value : AgentType → String
  | .fundamentals_analyst => "fundamentals_analyst"
  | .market_analyst => "market_analyst"
  | .news_analyst => "news_analyst"
  | .social_media_analyst => "social_media_analyst"
  | .bull_researcher => "bull_researcher"
  | .bear_researcher => "bear_researcher"
  | .research_manager => "research_manager"
  | .risk_manager => "risk_manager"
  | .trader => "trader"
  | .risky_debator => "risky_debator"
  | .safe_debator => "safe_debator"
  | .neutral_debator => "neutral_debator"

inductive AgentStatus
  | idle
  | busy
  | error
  | offline
deriving DecidableEq, Repr

/-- Modelled from the spec: `Capability` (§3; `base_agent.py` is missing). -/
structure Capability where
  name : String
  description : String
  supported_markets : List String
  max_concurrent_tasks : Nat
  estimated_duration : Nat
deriving DecidableEq, Repr

/-- The `BaseAgent` fields the manager reads (record projection; §3). -/
structure Agent where
  agent_id : String
  agent_type : AgentType
  status : AgentStatus
  capabilities : List Capability
  current_tasks : List String
  success_rate : Rat
deriving DecidableEq, Repr

/-- Modelled from the spec: `BaseAgent.can_handle_task` — a capability's name
corresponds to the task type and the market is among its supported markets
(§4.1, §6; `base_agent.py` is missing). -/
def can_handle_task (a : Agent) (task_type : String) (market : String) : Bool :=
  a.capabilities.any
    (fun c => c.name == task_type && c.supported_markets.contains market)

structure TaskContext where
  task_id : String
  symbol : String
  market : String
deriving DecidableEq, Repr

structure TaskResult where
  task_id : String
  agent_id : String
  agent_type : AgentType
  status : String
  result : List (String × String)
  error : Option String
deriving DecidableEq, Repr

/-- `LoadBalancer` (`agent_manager.py`): strategy string and one round-robin
counter per agent type (`defaultdict(int)` as an association list). -/
structure LoadBalancer where
  strategy : String := "round_robin"
  round_robin_counters : List (AgentType × Nat) := []
deriving DecidableEq, Repr

def get_counter (cs : List (AgentType × Nat)) (t : AgentType) : Nat :=
  match cs.find? (fun p => p.1 == t) with
  | some p => p.2
  | none => 0

def set_counter : List (AgentType × Nat) → AgentType → Nat → List (AgentType × Nat)
  | [], t, v => [(t, v)]
  | p :: rest, t, v =>
    if p.1 == t then (t, v) :: rest else p :: set_counter rest t v

/-- Python `min(agents, key=len current_tasks)`: first minimum wins. -/
def min_by_tasks : Agent → List Agent → Agent
  | best, [] => best
  | best, a :: rest =>
    min_by_tasks
      (if a.current_tasks.length < best.current_tasks.length then a else best) rest

/-- Python `max(agents, key=success_rate)`: first maximum wins. -/
def max_by_success : Agent → List Agent → Agent
  | best, [] => best
  | best, a :: rest =>
    max_by_success (if best.success_rate < a.success_rate then a else best) rest

/-- `LoadBalancer.select_agent`.  The empty-list `ValueError` is `none`; a
single-element list is returned without consulting strategy state. -/
def select_agent (lb : LoadBalancer) (agents : List Agent) :
    Option (Agent × LoadBalancer) :=
  match agents with
  | [] => none
  | [a] => some (a, lb)
  | a :: rest =>
    if lb.strategy == "round_robin" then
      let t := a.agent_type
      let n := get_counter lb.round_robin_counters t
      some (agents.getD (n % agents.length) a,
        { lb with round_robin_counters := set_counter lb.round_robin_counters t (n + 1) })
    else if lb.strategy == "least_busy" then
      some (min_by_tasks a rest, lb)
    else if lb.strategy == "best_performance" then
      some (max_by_success a rest, lb)
    else
      some (a, lb)

/-- `AgentManager` registry state: the local index (`self.agents`, an
insertion-ordered dict), the type-indexed lists (`self.agent_types`), and the
load balancer. -/
structure AgentManager where
  agents : List (String × Agent)
  agent_types : List (AgentType × List Agent)
  load_balancer : LoadBalancer
deriving DecidableEq, Repr

def has_agent_id (m : List (String × Agent)) (id : String) : Bool :=
  m.any (fun p => p.1 == id)

/-- `defaultdict(list)` append: `self.agent_types[agent.agent_type].append(agent)`. -/
def add_to_type_lists : List (AgentType × List Agent) → Agent → List (AgentType × List Agent)
  | [], a => [(a.agent_type, [a])]
  | p :: rest, a =>
    if p.1 == a.agent_type then (p.1, p.2 ++ [a]) :: rest
    else p :: add_to_type_lists rest a

/-- `AgentManager.register_agent`: duplicate ids are refused before any
mutation; otherwise the agent joins the local index and its type list. -/
def register_agent (mgr : AgentManager) (a : Agent) : Bool × AgentManager :=
  if has_agent_id mgr.agents a.agent_id then (false, mgr)
  else
    (true,
      { mgr with agents := mgr.agents ++ [(a.agent_id, a)]
                 agent_types := add_to_type_lists mgr.agent_types a })

/-- `AgentManager.get_agents_by_type`: linear scan comparing type values,
empty list when no entry exists. -/
def get_agents_by_type (mgr : AgentManager) (t : AgentType) : List Agent :=
  match mgr.agent_types.find? (fun p => p.1 == t) with
  | some p => p.2
  | none => []

/-- The availability filter inside `AgentManager.get_available_agent`:
status is IDLE and the agent can handle the task for the market. -/
def find_available_agents (mgr : AgentManager) (t : AgentType)
    (task : String) (market : String) : List Agent :=
  (get_agents_by_type mgr t).filter
    (fun a => a.status == AgentStatus.idle && can_handle_task a task market)

/-- `AgentManager.get_available_agent`: `none` when no idle capable agent
exists, otherwise the load-balanced pick. -/
def get_available_agent (mgr : AgentManager) (t : AgentType)
    (task : String) (market : String) : Option Agent × LoadBalancer :=
  let available := find_available_agents mgr t task market
  if available.isEmpty then (none, mgr.load_balancer)
  else
    match select_agent mgr.load_balancer available with
    | some (a, lb) => (some a, lb)
    | none => (none, mgr.load_balancer)

/-- `AgentManager.execute_task`.  `run` models `await agent.execute_task(ctx)`
(contracted to return a `TaskResult`, never raise).  When no agent is
available the raised `Exception` is caught by the function's own
try/except, which returns an error `TaskResult` instead of propagating. -/
def execute_task (mgr : AgentManager) (t : AgentType) (task : String)
    (ctx : TaskContext) (run : Agent → TaskResult) : TaskResult :=
  match (get_available_agent mgr t task ctx.market).1 with
  | some a => run a
  | none =>
    { task_id := ctx.task_id
      agent_id := "unknown"
      agent_type := t
      status := "error"
      result := []
      error := some ("没有可用的智能体: " ++ t.value) }

/-- `AgentManager.health_check`: the healthy fraction of all registered agents
(0 when none), healthy iff strictly above 0.8.  Python's float arithmetic on
these small integer counts is modelled exactly on `ℚ`. -/
def total_agents (mgr : AgentManager) : Nat := mgr.agents.length

def healthy_agents (mgr : AgentManager) (probe : String → Bool) : Nat :=
  (mgr.agents.filter (fun p => probe p.1)).length

def health_check (mgr : AgentManager) (probe : String → Bool) : Bool :=
  decide ((if total_agents mgr = 0 then (0 : ℚ)
    else (healthy_agents mgr probe : ℚ) / (total_agents mgr : ℚ)) > 4 / 5)

/-- C6: registering an agent whose id is already in the local index returns
`false` without mutating anything — local index, type lists and balancer are
all returned unchanged (and the operation, a total function here, throws
nothing). -/
theorem C6_duplicate_register (mgr : AgentManager) (a : Agent)
    (h : has_agent_id mgr.agents a.agent_id = true) :
    register_agent mgr a = (false, mgr) := by
  simp [register_agent, h]

def empty_manager : AgentManager :=
  { agents := []
    agent_types := []
    load_balancer := { strategy := "round_robin", round_robin_counters := [] } }

def sample_capability : Capability :=
  { name := "market_analysis"
    description := "technical analysis"
    supported_markets := ["US", "CN"]
    max_concurrent_tasks := 1
    estimated_duration := 60 }

def sample_agent : Agent :=
  { agent_id := "agent-1"
    agent_type := .market_analyst
    status := .idle
    capabilities := [sample_capability]
    current_tasks := []
    success_rate := 1 }

/-- Witness for C6: after registering `sample_agent` into the empty registry,
a second registration of the same id fails and leaves the registry unchanged. -/
theorem C6_duplicate_register_witness :
    has_agent_id (register_agent empty_manager sample_agent).2.agents
        sample_agent.agent_id = true
    ∧ register_agent (register_agent empty_manager sample_agent).2 sample_agent
      = (false, (register_agent empty_manager sample_agent).2) := by
  have h : has_agent_id (register_agent empty_manager sample_agent).2.agents
      sample_agent.agent_id = true := by decide
  exact ⟨h, C6_duplicate_register _ _ h⟩

/-- C7: when no registered agent of the requested type is both IDLE and
capable of the task and market, `execute_task` returns a `TaskResult` with
`status = "error"` carrying an error message — the internal exception never
escapes the dispatch boundary (the embedding is a total function whose only
outcomes are `TaskResult`s).  Capability matching is the spec-modelled
`can_handle_task`. -/
theorem C7_dispatch_no_agent (mgr : AgentManager) (t : AgentType) (task : String)
    (ctx : TaskContext) (run : Agent → TaskResult)
    (h : ∀ a ∈ get_agents_by_type mgr t,
        ¬(a.status = AgentStatus.idle ∧ can_handle_task a task ctx.market = true)) :
    (execute_task mgr t task ctx run).status = "error"
    ∧ (execute_task mgr t task ctx run).error
      = some ("没有可用的智能体: " ++ t.value) := by
  have hfil : find_available_agents mgr t task ctx.market = [] := by
    rw [find_available_agents, List.filter_eq_nil_iff]
    intro a ha
    simp only [Bool.and_eq_true, beq_iff_eq]
    exact h a ha
  have hrun : execute_task mgr t task ctx run
      = { task_id := ctx.task_id
          agent_id := "unknown"
          agent_type := t
          status := "error"
          result := []
          error := some ("没有可用的智能体: " ++ t.value) } := by
    simp [execute_task, get_available_agent, hfil]
  rw [hrun]
  exact ⟨rfl, rfl⟩

def sample_context : TaskContext :=
  { task_id := "task-1", symbol := "AAPL", market := "US" }

def sample_run : Agent → TaskResult := fun a =>
  { task_id := "task-1"
    agent_id := a.agent_id
    agent_type := a.agent_type
    status := "success"
    result := []
    error := none }

/-- Witness for C7: the empty registry has no news analyst, so dispatch yields
an error result. -/
theorem C7_dispatch_no_agent_witness :
    (execute_task empty_manager .news_analyst "news_analysis" sample_context
        sample_run).status = "error" := by
  refine (C7_dispatch_no_agent empty_manager .news_analyst "news_analysis"
    sample_context sample_run ?_).1
  intro a ha
  simp [get_agents_by_type, empty_manager] at ha

lemma health_check_iff (mgr : AgentManager) (probe : String → Bool) :
    health_check mgr probe = true
    ↔ 4 * total_agents mgr < 5 * healthy_agents mgr probe := by
  have hle : healthy_agents mgr probe ≤ total_agents mgr :=
    List.length_filter_le _ _
  unfold health_check
  by_cases ht : total_agents mgr = 0
  · have hh : healthy_agents mgr probe = 0 := by omega
    simp [ht, hh]
    norm_num
  · have htpos : (0 : ℚ) < (total_agents mgr : ℚ) := by
      exact_mod_cast Nat.pos_of_ne_zero ht
    rw [if_neg ht, decide_eq_true_iff, gt_iff_lt,
      div_lt_div_iff₀ (by norm_num) htpos,
      mul_comm ((healthy_agents mgr probe : ℚ)) (5 : ℚ)]
    exact_mod_cast Iff.rfl

/-- C8: the system health check returns `true` iff
`healthy_count / total_count > 0.8` — stated division-free as
`4 * total < 5 * healthy` (equivalent over the rationals the code computes
with, the ratio being taken as 0 when no agents are registered); in
particular it is `false` at the exact 0.8 boundary, and `false` when no
agents are registered. -/
theorem C8_health_threshold (mgr : AgentManager) (probe : String → Bool) :
    (health_check mgr probe = true
      ↔ 4 * total_agents mgr < 5 * healthy_agents mgr probe)
    ∧ (total_agents mgr = 0 → health_check mgr probe = false)
    ∧ (5 * healthy_agents mgr probe = 4 * total_agents mgr →
        health_check mgr probe = false) := by
  have hiff := health_check_iff mgr probe
  have hle : healthy_agents mgr probe ≤ total_agents mgr :=
    List.length_filter_le _ _
  refine ⟨hiff, ?_, ?_⟩
  · intro ht
    cases hb : health_check mgr probe
    · rfl
    · exfalso
      have := hiff.mp hb
      omega
  · intro heq
    cases hb : health_check mgr probe
    · rfl
    · exfalso
      have := hiff.mp hb
      omega

def mk_plain_agent (id : String) : Agent :=
  { agent_id := id
    agent_type := .trader
    status := .idle
    capabilities := []
    current_tasks := []
    success_rate := 1 }

def five_agent_manager : AgentManager :=
  { agents := [("a1", mk_plain_agent "a1"), ("a2", mk_plain_agent "a2"),
               ("a3", mk_plain_agent "a3"), ("a4", mk_plain_agent "a4"),
               ("a5", mk_plain_agent "a5")]
    agent_types := []
    load_balancer := { strategy := "round_robin", round_robin_counters := [] } }

/-- Witness for C8 at the boundary: 4 of 5 agents healthy is exactly 0.8, and
the check reports unhealthy. -/
theorem C8_health_threshold_witness :
    health_check five_agent_manager (fun id => !(id == "a5")) = false := by
  refine (C8_health_threshold five_agent_manager
    (fun id => !(id == "a5"))).2.2 ?_
  decide

end TradingAgentsCN
